import Mathlib

/-!
# Verification of the lamblayer layer-creation workflow

A shallow embedding of `lamblayer/create.py` and `lamblayer/exceptions.py`.
Python strings are modelled as `List Char`, JSON values as the inductive
`JVal`, fallible code as `Except LErr`, and the side-effecting workflow
`Create.create` as a pure function that returns the list of external
events it performs (file reads, HTTP requests, sleeps, publish calls)
together with its outcome.  The poll loop is given explicit fuel; running
out of fuel models the loop still running.
-/

set_option autoImplicit false

namespace Lamblayer

/-- Python strings are modelled as lists of characters. -/
abbrev PyStr := List Char

/-! ## JSON values

`json.load` produces strings, numbers, booleans, null, arrays and objects.
The model covers the value shapes the two config files can contain; an
object is represented directly as its key/value list where it occurs
(the top level of each config file). -/

/-- A JSON value as produced by `json.load`, restricted to the shapes the
lamblayer config files use (no nested objects). -/
inductive JVal : Type
  | null : JVal
  | bool (b : Bool) : JVal
  | int (n : Int) : JVal
  | str (s : PyStr) : JVal
  | list (l : List JVal) : JVal

/-- `dict.get` on a JSON object decoded by `json.load`: the last binding of
a duplicated key wins (as in CPython's `json`), and a missing key gives
`none` (Python `None`). -/
def lookupKey (cfg : List (PyStr × JVal)) (k : PyStr) : Option JVal :=
  match cfg with
  | [] => none
  | (k', v) :: rest =>
    match lookupKey rest k with
    | some v' => some v'
    | none => if k' = k then some v else none

/-! ## Errors

`lamblayer/exceptions.py` defines the typed errors; `ioError`, `typeError`
and `valueError` stand for the untyped Python exceptions (`OSError`,
`TypeError`, `ValueError`) that can escape the code. -/

/-- The errors the workflow can raise.  The lamblayer exception classes
store only their `message` attribute, so each typed error carries just the
message string. -/
inductive LErr : Type
  | invalidOption (msg : PyStr) : LErr
  | paramValidation (msg : PyStr) : LErr
  | createLayer (msg : PyStr) : LErr
  | ioError : LErr
  | typeError : LErr
  | valueError : LErr
deriving DecidableEq

/-- The message built by `LamblayerParamValidationError.__init__`.  In the
source, the two f-strings that mention `param_name`, `param_value` and
`valid_type` are bare expression statements on the lines after the
assignment to `message`; their values are discarded, so the stored message
is only the first string. -/
def paramValidationMessage : PyStr :=
  "ParamValidationError: Parameter validation failed:\n".toList

/-- `"'--packages' and '--src' cannot be specified at the same time."` -/
def msgBothOptions : PyStr :=
  "`--packages` and `--src` cannot be specified at the same time.".toList

/-- `"either '--packages' or '--src' must be specified."` -/
def msgNeitherOption : PyStr :=
  "either `--packages` or `--src` must be specified.".toList

/-- Message of the `LamblayerCreateLayerError` raised on a non-2xx build
service response. -/
def msgContact : PyStr :=
  "Something went wrong..., Please contact with higuchi@adansons.co.jp".toList

/-- Message of the `LamblayerCreateLayerError` raised on an implausibly
small artifact. -/
def msgBadPackage : PyStr :=
  "Something went wrong..., Please check the pakcage name and version again.".toList

/-! ## Config parsing -/

/-- Key `"LayerName"`. -/
def layerNameKey : PyStr := "LayerName".toList
/-- Key `"Description"`. -/
def descriptionKey : PyStr := "Description".toList
/-- Key `"CompatibleRuntimes"`. -/
def compatibleRuntimesKey : PyStr := "CompatibleRuntimes".toList
/-- Key `"LicenseInfo"`. -/
def licenseInfoKey : PyStr := "LicenseInfo".toList
/-- Key `"Arch"`. -/
def archKey : PyStr := "Arch".toList
/-- Key `"Runtime"`. -/
def runtimeKey : PyStr := "Runtime".toList
/-- Key `"Packages"`. -/
def packagesKey : PyStr := "Packages".toList
/-- Key `"No_deps"`. -/
def noDepsKey : PyStr := "No_deps".toList

/-- `Create._parse_create_layer_json`, after the file has been read and
decoded (file access is modelled in `create`).  The four fields are fetched
with `dict.get` and returned as they are; nothing is validated and the
function cannot fail. -/
def parseCreateLayerJson (cfg : List (PyStr × JVal)) :
    Option JVal × Option JVal × Option JVal × Option JVal :=
  (lookupKey cfg layerNameKey,
   lookupKey cfg descriptionKey,
   lookupKey cfg compatibleRuntimesKey,
   lookupKey cfg licenseInfoKey)

/-- The string values of a JSON array, or `none` if some element is not a
string (in which case Python's `"&".join` raises `TypeError`). -/
def strVals : List JVal → Option (List PyStr)
  | [] => some []
  | .str s :: rest => (strVals rest).map (s :: ·)
  | _ :: _ => none

/-- `"&".join(packages)` on a decoded JSON array. -/
def joinAmp (l : List JVal) : Except LErr PyStr :=
  match strVals l with
  | some ss => .ok (List.intercalate ['&'] ss)
  | none => .error .typeError

/-- `isinstance(x, int)` for a fetched JSON value: Python `bool` is a
subclass of `int`, so booleans pass this check. -/
def isPyInt : Option JVal → Bool
  | some (.int _) => true
  | some (.bool _) => true
  | _ => false

/-- `Create._parse_packages_json`, after the file has been read and decoded.
The four fields are fetched with `dict.get` (with `No_deps` defaulting to
`0`), type-checked in source order with `isinstance`, and a list-valued
`Packages` is joined with `"&"`.  Every `isinstance` failure raises
`LamblayerParamValidationError`, whose stored message is always
`paramValidationMessage` (see that definition).  `no_deps` is returned as
the fetched object, as in the source. -/
def parsePackagesJson (cfg : List (PyStr × JVal)) :
    Except LErr (PyStr × PyStr × PyStr × JVal) :=
  let arch := lookupKey cfg archKey
  let runtime := lookupKey cfg runtimeKey
  let packages := lookupKey cfg packagesKey
  let no_deps := (lookupKey cfg noDepsKey).getD (.int 0)
  match arch with
  | some (.str a) =>
    match runtime with
    | some (.str r) =>
      match packages with
      | some (.str p) =>
        if isPyInt (some no_deps) then .ok (a, r, p, no_deps)
        else .error (.paramValidation paramValidationMessage)
      | some (.list l) =>
        if isPyInt (some no_deps) then
          match joinAmp l with
          | .ok p => .ok (a, r, p, no_deps)
          | .error e => .error e
        else .error (.paramValidation paramValidationMessage)
      | _ => .error (.paramValidation paramValidationMessage)
    | _ => .error (.paramValidation paramValidationMessage)
  | _ => .error (.paramValidation paramValidationMessage)

/-- `needle` occurs contiguously inside `hay`. -/
def containsSeq (needle hay : PyStr) : Bool :=
  (List.range (hay.length + 1)).any (fun i => needle.isPrefixOf (hay.drop i))

/-! ## Python string splitting

`str.split(sep, maxsplit)` for a non-empty separator, used by `create` to
recover the S3 bucket and key from the pre-signed URL. -/

/-- Splits `s` at the first occurrence of the (non-empty) separator `sep`,
returning the part before it and the part after it, or `none` when `sep`
does not occur in `s`. -/
def splitOnceSeq (sep : PyStr) : PyStr → Option (PyStr × PyStr)
  | [] => none
  | x :: xs =>
    if sep.isPrefixOf (x :: xs) then some ([], (x :: xs).drop sep.length)
    else
      match splitOnceSeq sep xs with
      | some (a, b) => some (x :: a, b)
      | none => none

/-- Python `s.split(sep, maxsplit)` with `maxsplit = n` and a non-empty
separator. -/
def pySplitN (sep : PyStr) : Nat → PyStr → List PyStr
  | 0, s => [s]
  | n + 1, s =>
    match splitOnceSeq sep s with
    | none => [s]
    | some (a, b) => a :: pySplitN sep n b

/-- Python `s.split(sep)` (unlimited `maxsplit`): `s.length` splits can
never be exceeded, so a bound of `s.length + 1` is exact. -/
def pySplit (sep s : PyStr) : List PyStr :=
  pySplitN sep (s.length + 1) s

/-- `pre_signedurl.split(".")[0].split("//")[-1]`, the S3 bucket recovered
from the pre-signed URL in `Create.create`. -/
def s3BucketOf (url : PyStr) : PyStr :=
  (pySplit ['/', '/'] ((pySplit ['.'] url).headD [])).getLastD []

/-- `pre_signedurl.split("/", 3)[-1]`, the S3 key recovered from the
pre-signed URL in `Create.create`. -/
def s3KeyOf (url : PyStr) : PyStr :=
  (pySplitN ['/'] 3 url).getLastD []

/-! ## Python `int()` and f-string formatting -/

/-- Accumulates decimal digits, as `int()` does on a digit string. -/
def natOfDigits (ds : PyStr) : Nat :=
  ds.foldl (fun a c => a * 10 + (c.toNat - '0'.toNat)) 0

/-- Python `int(s)` on a string: an optional sign followed by at least one
decimal digit parses, anything else raises `ValueError`.  (Surrounding
whitespace and underscore separators, which Python also accepts, do not
occur in `Content-Length` values and are not modelled.) -/
def pyIntOfStr (s : PyStr) : Except LErr Int :=
  match s with
  | '-' :: ds =>
    if ds ≠ [] ∧ ds.all Char.isDigit then .ok (-(natOfDigits ds : Int))
    else .error .valueError
  | '+' :: ds =>
    if ds ≠ [] ∧ ds.all Char.isDigit then .ok (natOfDigits ds : Int)
    else .error .valueError
  | ds =>
    if ds ≠ [] ∧ ds.all Char.isDigit then .ok (natOfDigits ds : Int)
    else .error .valueError

/-- Python `int(x)` where `x` is `headers.get("Content-Length")`: a missing
header is `None`, and `int(None)` raises `TypeError`. -/
def pyIntOpt : Option PyStr → Except LErr Int
  | none => .error .typeError
  | some s => pyIntOfStr s

/-- Python `f"{x}"` for the values `no_deps` can hold after validation
(an `int` or a `bool`); the remaining shapes are unreachable there. -/
def pyStr : JVal → PyStr
  | .int n => (toString n).toList
  | .bool true => "True".toList
  | .bool false => "False".toList
  | .null => "None".toList
  | .str s => s
  | .list _ => []

/-- The build-service request URL
`f"https://layerzip.higuchi.work/{arch}/{runtime}/{packages}?no-deps={no_deps}"`. -/
def buildUrl (arch runtime packages : PyStr) (no_deps : JVal) : PyStr :=
  "https://layerzip.higuchi.work/".toList ++ arch ++ '/' :: runtime ++
    '/' :: packages ++ "?no-deps=".toList ++ pyStr no_deps

/-! ## The `create` workflow -/

/-- An HTTP response as `Create.create` consumes it: its status code, its
body text and its `Content-Length` header (`none` when absent; the only
header the code reads). -/
structure HttpResponse : Type where
  status : Nat
  text : PyStr
  contentLength : Option PyStr
deriving DecidableEq

/-- The externally visible actions of the workflow, in program order. -/
inductive Event : Type
  | fsReadConfig (path : PyStr) : Event
  | zipArchive (src wrap_dir1 wrap_dir2 : PyStr) : Event
  | httpGet (url : PyStr) : Event
  | sleep (secs : Nat) : Event
  | publishZip (name desc runtimes lic : Option JVal) : Event
  | publishS3 (name desc runtimes lic : Option JVal) (bucket key : PyStr) : Event

/-- Whether an event is a `publish_layer_version` call. -/
def Event.isPublish : Event → Bool
  | .publishZip _ _ _ _ => true
  | .publishS3 _ _ _ _ _ _ => true
  | _ => false

/-- Python truthiness of an optional-string CLI argument (`None` and `""`
are falsy). -/
def pyTruthy : Option PyStr → Bool
  | none => false
  | some s => !s.isEmpty

/-- The `while not is_download_completed` poll loop of `Create.create`.
`polls i` is the response of the `i`-th `requests.get(pre_signedurl)`;
each non-200 response is followed by `time.sleep(5)` and
`elapsed_time += 5`.  The loop has no exit besides a 200 response, so it
is given `fuel`; exhausted fuel (result `none`) models the loop still
running.  Returns the events performed and, on completion, the 200
response together with the final `elapsed_time`. -/
def pollPackages (polls : Nat → HttpResponse) (url : PyStr) :
    Nat → Nat → Nat → List Event × Option (HttpResponse × Nat)
  | 0, _, _ => ([], none)
  | fuel + 1, i, elapsed =>
    let r := polls i
    if r.status = 200 then ([.httpGet url], some (r, elapsed))
    else
      let rest := pollPackages polls url fuel (i + 1) (elapsed + 5)
      (.httpGet url :: .sleep 5 :: rest.1, rest.2)

/-- The artifact-size check of `Create.create`:
`content_length = response.headers.get("Content-Length")` followed by
`if int(content_length) < 200: raise LamblayerCreateLayerError(...)`. -/
def contentCheck (contentLength : Option PyStr) : Except LErr Unit :=
  match pyIntOpt contentLength with
  | .error e => .error e
  | .ok n => if n < 200 then .error (.createLayer msgBadPackage) else .ok ()

/-- The `if packages:` block of `Create.create`, after the packages config
file has been read and decoded into `pcfg`.  `init` is the response of the
initial build-service request, `polls` the responses of the poll loop and
`fuel` its fuel.  `ln`, `d`, `cr`, `li` are the already-parsed layer
fields.  Returns the events of the block and the outcome (`none` while
the poll loop is still running). -/
def packagesFlow (init : HttpResponse) (polls : Nat → HttpResponse)
    (fuel : Nat) (ln d cr li : Option JVal) (pcfg : List (PyStr × JVal)) :
    List Event × Option (Except LErr Unit) :=
  match parsePackagesJson pcfg with
  | .error e => ([], some (.error e))
  | .ok (arch, runtime, packages, no_deps) =>
    let url := buildUrl arch runtime packages no_deps
    if 200 ≤ init.status ∧ init.status < 300 then
      let pre_signedurl := init.text
      let pr := pollPackages polls pre_signedurl fuel 0 0
      match pr.2 with
      | none => (.httpGet url :: pr.1, none)
      | some (resp, _) =>
        match contentCheck resp.contentLength with
        | .error e => (.httpGet url :: pr.1, some (.error e))
        | .ok _ =>
          (.httpGet url :: (pr.1 ++
            [.publishS3 ln d cr li (s3BucketOf pre_signedurl)
              (s3KeyOf pre_signedurl)]),
           some (.ok ()))
    else ([.httpGet url], some (.error (.createLayer msgContact)))

/-- `Create.create`.  `fs` maps a path to the decoded JSON object of the
file at that path (`none`: opening the file fails).  `zipOk` is the
outcome of `_create_ziparchive` (modelled in detail by `createZiparchive`
below; `false` means it raised an `OSError`).  `init`, `polls`, `fuel`
drive the remote-package path as in `packagesFlow`.  The `if src:` and
`if packages:` blocks of the source run sequentially; the option check at
the top makes them mutually exclusive, so they are rendered as one
conditional.  Returns the events performed and the outcome (`none`: the
poll loop is still running). -/
def create (fs : PyStr → Option (List (PyStr × JVal))) (init : HttpResponse)
    (polls : Nat → HttpResponse) (fuel : Nat) (zipOk : Bool)
    (packages src : Option PyStr) (wrap_dir1 wrap_dir2 layer_path : PyStr) :
    List Event × Option (Except LErr Unit) :=
  if pyTruthy packages && pyTruthy src then
    ([], some (.error (.invalidOption msgBothOptions)))
  else if !pyTruthy packages && !pyTruthy src then
    ([], some (.error (.invalidOption msgNeitherOption)))
  else
    match fs layer_path with
    | none => ([.fsReadConfig layer_path], some (.error .ioError))
    | some layerCfg =>
      let parsed := parseCreateLayerJson layerCfg
      let layer_name := parsed.1
      let description := parsed.2.1
      let compatible_runtimes := parsed.2.2.1
      let license_info := parsed.2.2.2
      if pyTruthy src then
        let s := src.getD []
        if zipOk then
          ([.fsReadConfig layer_path, .zipArchive s wrap_dir1 wrap_dir2,
            .publishZip layer_name description compatible_runtimes
              license_info],
           some (.ok ()))
        else
          ([.fsReadConfig layer_path, .zipArchive s wrap_dir1 wrap_dir2],
           some (.error .ioError))
      else if pyTruthy packages then
        let pp := packages.getD []
        match fs pp with
        | none =>
          ([.fsReadConfig layer_path, .fsReadConfig pp],
           some (.error .ioError))
        | some pcfg =>
          let flow := packagesFlow init polls fuel layer_name description
            compatible_runtimes license_info pcfg
          (.fsReadConfig layer_path :: .fsReadConfig pp :: flow.1, flow.2)
      else ([.fsReadConfig layer_path], some (.ok ()))

/-! ## The archiver `Create._create_ziparchive` -/

/-- `os.path.join(a, b)` for POSIX paths: an absolute `b` discards `a`;
otherwise `b` is appended to `a`, inserting `"/"` unless `a` is empty or
already ends in `"/"`. -/
def pathJoin (a b : PyStr) : PyStr :=
  if b.head? = some '/' then b
  else if a = [] then b
  else if a.getLast? = some '/' then a ++ b
  else a ++ '/' :: b

/-- The archive member recorded by `shutil.make_archive(..., root_dir)` for
a file at path `p`: its path relative to `root` when it lies under `root`,
nothing otherwise. -/
def archiveEntry (root p : PyStr) : Option PyStr :=
  if (root ++ ['/']).isPrefixOf p then some (p.drop (root.length + 1))
  else none

/-- `Create._create_ziparchive`.  `tempDir` is the scratch directory name
derived from the timestamp hash (an MD5 hex digest; its derivation is
irrelevant to the archive, so it is a parameter).  `srcFiles` is the list
of file paths under `src` relative to `src` (`none`: `src` does not exist,
so `shutil.copytree` raises before creating anything).  `zipOk` and
`readOk` are the outcomes of `shutil.make_archive` and of reading the zip
back.  Returns whether the scratch directory still exists when the call
returns, and the archive's member paths (the abstraction of the zip
bytes) or the propagated error.  `shutil.rmtree(temp_dir)` runs only
after a successful read — there is no `try`/`finally` in the source — so
a failure after `copytree` leaves the scratch directory behind. -/
def createZiparchive (tempDir wrap_dir1 wrap_dir2 : PyStr)
    (srcFiles : Option (List PyStr)) (zipOk readOk : Bool) :
    Bool × Except LErr (List PyStr) :=
  let temp_layer_dir := pathJoin tempDir "rawlayer".toList
  let copy_src_dir := pathJoin (pathJoin temp_layer_dir wrap_dir1) wrap_dir2
  match srcFiles with
  | none => (false, .error .ioError)
  | some files =>
    if !zipOk then (true, .error .ioError)
    else if !readOk then (true, .error .ioError)
    else
      (false,
       .ok (files.filterMap (fun rel =>
         archiveEntry temp_layer_dir (pathJoin copy_src_dir rel))))

/-- The archive layout promised by the spec: internal paths are
`wrap_dir1/wrap_dir2/rel` with empty wrap segments omitted. -/
def specArchivePath (wrap_dir1 wrap_dir2 rel : PyStr) : PyStr :=
  (if wrap_dir1 = [] then [] else wrap_dir1 ++ ['/']) ++
    (if wrap_dir2 = [] then [] else wrap_dir2 ++ ['/']) ++ rel

/-! ## Lemmas about paths and the archiver -/

/-- A list is a Boolean prefix of itself followed by anything. -/
theorem isPrefixOf_append_self (l t : PyStr) : l.isPrefixOf (l ++ t) = true := by
  induction l with
  | nil => simp [List.isPrefixOf]
  | cons x xs ih => simp [List.isPrefixOf, ih]

/-- `os.path.join` inserts a separator before a relative component when the
left side is non-empty and does not already end in `/`. -/
theorem pathJoin_sep (a : PyStr) (c : Char) (cs : PyStr) (hc : c ≠ '/')
    (ha : a ≠ []) (hl : a.getLast? ≠ some '/') :
    pathJoin a (c :: cs) = a ++ '/' :: c :: cs := by
  simp [pathJoin, hc, ha, hl]

/-- `os.path.join(a, "")` appends a trailing separator. -/
theorem pathJoin_nil_right (a : PyStr) (ha : a ≠ [])
    (hl : a.getLast? ≠ some '/') : pathJoin a [] = a ++ ['/'] := by
  simp [pathJoin, ha, hl]

/-- `os.path.join` after a trailing separator just concatenates. -/
theorem pathJoin_slash_end (a b : PyStr) (ha : a ≠ [])
    (hl : a.getLast? = some '/') (hb : b.head? ≠ some '/') :
    pathJoin a b = a ++ b := by
  simp [pathJoin, ha, hl, hb]

/-- A file placed at `root ++ "/" ++ x` is archived under the member name
`x`. -/
theorem archiveEntry_append (root x : PyStr) :
    archiveEntry root (root ++ '/' :: x) = some x := by
  unfold archiveEntry
  have h1 : root ++ '/' :: x = (root ++ ['/']) ++ x := by simp
  have h2 : (root ++ ['/']).isPrefixOf (root ++ '/' :: x) = true := by
    rw [h1]; exact isPrefixOf_append_self _ _
  have h3 : root.length + 1 = (root ++ ['/']).length := by simp
  rw [h2, if_pos rfl, h1, h3, List.drop_left]

/-- Pointwise-`some` `filterMap` is a `map`. -/
theorem filterMap_eq_map_of_forall {α β : Type} (l : List α)
    (f : α → Option β) (g : α → β) (h : ∀ x ∈ l, f x = some (g x)) :
    l.filterMap f = l.map g := by
  induction l with
  | nil => rfl
  | cons x xs ih =>
    rw [List.filterMap_cons, h x (by simp), List.map_cons,
      ih (fun y hy => h y (by simp [hy]))]

/-- The scratch-relative layer root `os.path.join(temp_dir, "rawlayer")`. -/
theorem temp_layer_dir_eq (tempDir : PyStr) (htn : tempDir ≠ [])
    (htl : tempDir.getLast? ≠ some '/') :
    pathJoin tempDir "rawlayer".toList =
      tempDir ++ '/' :: "rawlayer".toList :=
  pathJoin_sep tempDir 'r' "awlayer".toList (by decide) htn htl

/-- Where the archiver places the copy of a source file, and hence the
archive member it produces: for well-formed wrap names the member path is
exactly the spec's `wrap_dir1/wrap_dir2/rel` with empty segments
omitted. -/
theorem archiveEntry_spec (tempDir wrap_dir1 wrap_dir2 rel : PyStr)
    (htn : tempDir ≠ []) (htl : tempDir.getLast? ≠ some '/')
    (h1h : wrap_dir1.head? ≠ some '/') (h1l : wrap_dir1.getLast? ≠ some '/')
    (h2h : wrap_dir2.head? ≠ some '/') (h2l : wrap_dir2.getLast? ≠ some '/')
    (hrn : rel ≠ []) (hrh : rel.head? ≠ some '/') :
    archiveEntry (pathJoin tempDir "rawlayer".toList)
      (pathJoin
        (pathJoin (pathJoin (pathJoin tempDir "rawlayer".toList) wrap_dir1)
          wrap_dir2) rel) =
    some (specArchivePath wrap_dir1 wrap_dir2 rel) := by
  obtain ⟨c, cs, rfl⟩ : ∃ c cs, rel = c :: cs := by
    cases rel with
    | nil => exact absurd rfl hrn
    | cons c cs => exact ⟨c, cs, rfl⟩
  have hc : c ≠ '/' := by simpa using hrh
  set tld := pathJoin tempDir "rawlayer".toList with htlddef
  have htld : tld = tempDir ++ '/' :: "rawlayer".toList :=
    temp_layer_dir_eq tempDir htn htl
  have htldne : tld ≠ [] := by rw [htld]; simp
  have htldlast : tld.getLast? = some 'r' := by
    rw [htld, List.getLast?_append_of_ne_nil _ (by simp)]; rfl
  have htldlast' : tld.getLast? ≠ some '/' := by rw [htldlast]; decide
  cases wrap_dir1 with
  | nil =>
    have hj1 : pathJoin tld [] = tld ++ ['/'] := pathJoin_nil_right _ htldne htldlast'
    cases wrap_dir2 with
    | nil =>
      have hj2 : pathJoin (tld ++ ['/']) [] = tld ++ ['/'] := by
        rw [pathJoin_slash_end _ _ (by simp) (by simp) (by simp)]
        simp
      have hj3 : pathJoin (tld ++ ['/']) (c :: cs) = tld ++ '/' :: c :: cs := by
        rw [pathJoin_slash_end _ _ (by simp) (by simp) (by simpa using hc)]
        simp
      rw [hj1, hj2, hj3, archiveEntry_append]
      simp [specArchivePath]
    | cons d ds =>
      have hd : d ≠ '/' := by simpa using h2h
      have hj2 : pathJoin (tld ++ ['/']) (d :: ds) = tld ++ '/' :: d :: ds := by
        rw [pathJoin_slash_end _ _ (by simp) (by simp) (by simpa using hd)]
        simp
      have hlast2 : (tld ++ '/' :: d :: ds).getLast? ≠ some '/' := by
        rw [List.getLast?_append_of_ne_nil _ (by simp)]
        simpa using h2l
      have hj3 : pathJoin (tld ++ '/' :: d :: ds) (c :: cs) =
          tld ++ '/' :: (d :: ds ++ '/' :: c :: cs) := by
        rw [pathJoin_sep _ c cs hc (by simp) hlast2]
        simp
      rw [hj1, hj2, hj3, archiveEntry_append]
      simp [specArchivePath]
  | cons b bs =>
    have hb : b ≠ '/' := by simpa using h1h
    have hj1 : pathJoin tld (b :: bs) = tld ++ '/' :: b :: bs :=
      pathJoin_sep _ b bs hb htldne htldlast'
    have hlast1 : (tld ++ '/' :: b :: bs).getLast? ≠ some '/' := by
      rw [List.getLast?_append_of_ne_nil _ (by simp)]
      simpa using h1l
    cases wrap_dir2 with
    | nil =>
      have hj2 : pathJoin (tld ++ '/' :: b :: bs) [] =
          tld ++ '/' :: (b :: bs ++ ['/']) := by
        rw [pathJoin_nil_right _ (by simp) hlast1]
        simp
      have hlast2 : (tld ++ '/' :: (b :: bs ++ ['/'])).getLast? = some '/' := by
        rw [List.getLast?_append_of_ne_nil _ (by simp)]
        rw [show ('/' : Char) :: (b :: bs ++ ['/']) =
          ('/' :: b :: bs) ++ ['/'] by simp]
        rw [List.getLast?_append_of_ne_nil _ (by simp)]
        rfl
      have hj3 : pathJoin (tld ++ '/' :: (b :: bs ++ ['/'])) (c :: cs) =
          tld ++ '/' :: (b :: bs ++ '/' :: c :: cs) := by
        rw [pathJoin_slash_end _ _ (by simp) hlast2 (by simpa using hc)]
        simp
      rw [hj1, hj2, hj3, archiveEntry_append]
      simp [specArchivePath]
    | cons d ds =>
      have hd : d ≠ '/' := by simpa using h2h
      have hj2 : pathJoin (tld ++ '/' :: b :: bs) (d :: ds) =
          tld ++ '/' :: (b :: bs ++ '/' :: d :: ds) := by
        rw [pathJoin_sep _ d ds hd (by simp) hlast1]
        simp
      have hlast2 : (tld ++ '/' :: (b :: bs ++ '/' :: d :: ds)).getLast? ≠
          some '/' := by
        rw [List.getLast?_append_of_ne_nil _ (by simp)]
        rw [show ('/' : Char) :: (b :: bs ++ '/' :: d :: ds) =
          ('/' :: b :: bs ++ ['/']) ++ d :: ds by simp]
        rw [List.getLast?_append_of_ne_nil _ (by simp)]
        simpa using h2l
      have hj3 : pathJoin (tld ++ '/' :: (b :: bs ++ '/' :: d :: ds))
          (c :: cs) =
          tld ++ '/' :: (b :: bs ++ '/' :: d :: ds ++ '/' :: c :: cs) := by
        rw [pathJoin_sep _ c cs hc (by simp) hlast2]
        simp
      rw [hj1, hj2, hj3, archiveEntry_append]
      simp [specArchivePath]

/-! ## Lemmas about Python string splitting -/

/-- A separator whose first character does not occur in `s` does not occur
in `s`. -/
theorem splitOnceSeq_none_spec (c : Char) (rest s : PyStr) (h : c ∉ s) :
    splitOnceSeq (c :: rest) s = none := by
  induction s with
  | nil => rfl
  | cons x xs ih =>
    have hx : (c == x) = false := by
      simp only [beq_eq_false_iff_ne]
      intro he
      exact h (he ▸ List.mem_cons_self x xs)
    have hxs : c ∉ xs := fun hm => h (List.mem_cons_of_mem _ hm)
    simp only [splitOnceSeq, List.isPrefixOf, hx, Bool.false_and,
      Bool.false_eq_true, if_false, ih hxs]

/-- The first occurrence of a separator that starts `b` and whose first
character avoids `a` is exactly at the `a`/`b` boundary. -/
theorem splitOnceSeq_append_spec (c : Char) (rest a b : PyStr)
    (ha : c ∉ a) (hb : (c :: rest).isPrefixOf b = true) :
    splitOnceSeq (c :: rest) (a ++ b) =
      some (a, b.drop (rest.length + 1)) := by
  induction a with
  | nil =>
    cases b with
    | nil => simp [List.isPrefixOf] at hb
    | cons y ys =>
      simp only [List.nil_append, splitOnceSeq, hb, if_true]
      rfl
  | cons x xs ih =>
    have hx : (c == x) = false := by
      simp only [beq_eq_false_iff_ne]
      intro he
      exact ha (he ▸ List.mem_cons_self x xs)
    have hxs : c ∉ xs := fun hm => ha (List.mem_cons_of_mem _ hm)
    simp only [List.cons_append, splitOnceSeq, List.isPrefixOf, hx,
      Bool.false_and, Bool.false_eq_true, if_false, List.append_eq, ih hxs]

/-- Splitting on a separator whose first character does not occur leaves
the string whole, whatever the `maxsplit`. -/
theorem pySplitN_no_sep (c : Char) (rest : PyStr) (n : Nat) (s : PyStr)
    (h : c ∉ s) : pySplitN (c :: rest) n s = [s] := by
  cases n with
  | zero => rfl
  | succ n => simp [pySplitN, splitOnceSeq_none_spec c rest s h]

/-- One step of `pySplitN` when the separator occurs. -/
theorem pySplitN_succ_of_some (sep : PyStr) (n : Nat) (s a b : PyStr)
    (h : splitOnceSeq sep s = some (a, b)) :
    pySplitN sep (n + 1) s = a :: pySplitN sep n b := by
  simp only [pySplitN, h]

/-- `pySplitN` when the separator does not occur. -/
theorem pySplitN_of_none (sep : PyStr) (n : Nat) (s : PyStr)
    (h : splitOnceSeq sep s = none) : pySplitN sep n s = [s] := by
  cases n with
  | zero => rfl
  | succ n => simp only [pySplitN, h]

/-- The first element of an unbounded split is the part before the first
separator occurrence. -/
theorem pySplit_headD_of_some (sep s a b : PyStr)
    (h : splitOnceSeq sep s = some (a, b)) : (pySplit sep s).headD [] = a := by
  unfold pySplit
  rw [pySplitN_succ_of_some sep s.length s a b h]
  rfl

/-- An unbounded split with exactly one separator occurrence has two
parts. -/
theorem pySplit_pair (sep s a b : PyStr)
    (h1 : splitOnceSeq sep s = some (a, b))
    (h2 : splitOnceSeq sep b = none) : pySplit sep s = [a, b] := by
  unfold pySplit
  rw [pySplitN_succ_of_some sep s.length s a b h1,
    pySplitN_of_none sep s.length b h2]

/-! ## Lemmas about the poll loop -/

/-- A completed poll loop completed on a 200 response: the response is the
first 200 of the stream and the elapsed time counts 5 seconds per earlier
poll. -/
theorem pollPackages_some_spec (polls : Nat → HttpResponse) (url : PyStr) :
    ∀ fuel i e r e', (pollPackages polls url fuel i e).2 = some (r, e') →
      ∃ k, r = polls (i + k) ∧ r.status = 200 ∧ e' = e + 5 * k ∧
        ∀ j, j < k → (polls (i + j)).status ≠ 200 := by
  intro fuel
  induction fuel with
  | zero => intro i e r e' h; simp [pollPackages] at h
  | succ fuel ih =>
    intro i e r e' h
    by_cases h200 : (polls i).status = 200
    · refine ⟨0, ?_, ?_, ?_, ?_⟩ <;>
        simp_all [pollPackages]
    · rw [pollPackages] at h
      simp only [h200, if_false] at h
      obtain ⟨k, hk1, hk2, hk3, hk4⟩ := ih (i + 1) (e + 5) r e' h
      refine ⟨k + 1, ?_, hk2, by omega, ?_⟩
      · rw [hk1]; congr 1; omega
      · intro j hj
        cases j with
        | zero => simpa using h200
        | succ j' =>
          have := hk4 j' (by omega)
          have harg : i + 1 + j' = i + (j' + 1) := by omega
          rwa [harg] at this

/-- A poll stream with no 200 response keeps the loop running for any
amount of fuel. -/
theorem pollPackages_none_spec (polls : Nat → HttpResponse) (url : PyStr)
    (h : ∀ n, (polls n).status ≠ 200) :
    ∀ fuel i e, (pollPackages polls url fuel i e).2 = none := by
  intro fuel
  induction fuel with
  | zero => intro i e; rfl
  | succ fuel ih =>
    intro i e
    rw [pollPackages]
    simp only [h i, if_false]
    exact ih (i + 1) (e + 5)

/-! ## Lemmas about the `create` workflow -/

/-- A string-list `Packages` value passes `strVals` with its strings. -/
theorem strVals_map_str (sl : List PyStr) :
    strVals (sl.map JVal.str) = some sl := by
  induction sl with
  | nil => rfl
  | cons x xs ih => simp [strVals, ih]

/-- `int()` on a string never produces a `LamblayerCreateLayerError` or a
`LamblayerInvalidOptionError` (it parses or raises `ValueError`). -/
theorem pyIntOfStr_errors (s : PyStr) :
    (∃ n, pyIntOfStr s = .ok n) ∨ pyIntOfStr s = .error .valueError := by
  unfold pyIntOfStr
  split <;> split <;> simp

/-- What the artifact-size check can do, by cases on the header value. -/
theorem contentCheck_cases (cl : Option PyStr) :
    (∃ n, pyIntOpt cl = .ok n ∧ n < 200 ∧
      contentCheck cl = .error (.createLayer msgBadPackage)) ∨
    (∃ n, pyIntOpt cl = .ok n ∧ 200 ≤ n ∧ contentCheck cl = .ok ()) ∨
    (∃ e, pyIntOpt cl = .error e ∧ contentCheck cl = .error e ∧
      (∀ m, e ≠ .createLayer m) ∧ (∀ m, e ≠ .invalidOption m)) := by
  cases cl with
  | none =>
    refine Or.inr (Or.inr ⟨.typeError, rfl, rfl, ?_, ?_⟩) <;> intro m <;> simp
  | some s =>
    rcases pyIntOfStr_errors s with ⟨n, hn⟩ | herr
    · by_cases hlt : n < 200
      · exact Or.inl ⟨n, hn, hlt, by simp [contentCheck, pyIntOpt, hn, hlt]⟩
      · exact Or.inr (Or.inl ⟨n, hn, by omega,
          by simp [contentCheck, pyIntOpt, hn, hlt]⟩)
    · refine Or.inr (Or.inr ⟨.valueError, herr,
        by simp [contentCheck, pyIntOpt, herr], ?_, ?_⟩) <;>
        intro m <;> simp

/-- `"&".join` never raises `LamblayerInvalidOptionError`. -/
theorem joinAmp_no_invalidOption (l : List JVal) (m : PyStr) :
    joinAmp l ≠ .error (.invalidOption m) := by
  unfold joinAmp
  split <;> simp

/-- `_parse_packages_json` never raises `LamblayerInvalidOptionError`. -/
theorem parsePackagesJson_no_invalidOption (cfg : List (PyStr × JVal))
    (m : PyStr) : parsePackagesJson cfg ≠ .error (.invalidOption m) := by
  intro h
  simp only [parsePackagesJson] at h
  repeat' split at h
  all_goals simp_all [joinAmp_no_invalidOption]

/-- With both config reads succeeding, exactly one option supplied (the
packages one) and the other falsy, `create` performs the two config reads
and then behaves as `packagesFlow` on the parsed layer fields. -/
theorem create_packages_eq (fs : PyStr → Option (List (PyStr × JVal)))
    (init : HttpResponse) (polls : Nat → HttpResponse) (fuel : Nat)
    (zipOk : Bool) (pp : PyStr) (src : Option PyStr)
    (wrap_dir1 wrap_dir2 layer_path : PyStr)
    (lcfg pcfg : List (PyStr × JVal))
    (hpp : pp ≠ []) (hsrc : pyTruthy src = false)
    (hfl : fs layer_path = some lcfg) (hfp : fs pp = some pcfg) :
    create fs init polls fuel zipOk (some pp) src wrap_dir1 wrap_dir2
      layer_path =
    (.fsReadConfig layer_path :: .fsReadConfig pp ::
      (packagesFlow init polls fuel (parseCreateLayerJson lcfg).1
        (parseCreateLayerJson lcfg).2.1 (parseCreateLayerJson lcfg).2.2.1
        (parseCreateLayerJson lcfg).2.2.2 pcfg).1,
     (packagesFlow init polls fuel (parseCreateLayerJson lcfg).1
       (parseCreateLayerJson lcfg).2.1 (parseCreateLayerJson lcfg).2.2.1
       (parseCreateLayerJson lcfg).2.2.2 pcfg).2) := by
  have ht : pyTruthy (some pp) = true := by simp [pyTruthy, hpp]
  simp [create, ht, hsrc, hfl, hfp]

/-- Whatever happens after it, the packages branch starts with the
build-service request to `buildUrl`. -/
theorem packagesFlow_head_url (init : HttpResponse)
    (polls : Nat → HttpResponse) (fuel : Nat) (ln d cr li : Option JVal)
    (pcfg : List (PyStr × JVal)) (arch runtime pkgs : PyStr) (nd : JVal)
    (hparse : parsePackagesJson pcfg = .ok (arch, runtime, pkgs, nd)) :
    ∃ rest, (packagesFlow init polls fuel ln d cr li pcfg).1 =
      .httpGet (buildUrl arch runtime pkgs nd) :: rest := by
  unfold packagesFlow
  simp only [hparse]
  repeat' split
  all_goals exact ⟨_, rfl⟩

/-- `int()` never raises `LamblayerInvalidOptionError`. -/
theorem pyIntOpt_no_invalidOption (cl : Option PyStr) (m : PyStr) :
    pyIntOpt cl ≠ .error (.invalidOption m) := by
  cases cl with
  | none => simp [pyIntOpt]
  | some s =>
    rcases pyIntOfStr_errors s with ⟨n, hn⟩ | he
    · simp [pyIntOpt, hn]
    · simp [pyIntOpt, he]

/-- The artifact-size check never raises `LamblayerInvalidOptionError`. -/
theorem contentCheck_no_invalidOption (cl : Option PyStr) (m : PyStr) :
    contentCheck cl ≠ .error (.invalidOption m) := by
  intro hh
  unfold contentCheck at hh
  split at hh
  · rename_i e heq
    injection hh with hh2
    rw [hh2] at heq
    exact pyIntOpt_no_invalidOption cl m heq
  · split at hh <;> simp_all

/-- `packagesFlow` never raises `LamblayerInvalidOptionError`. -/
theorem packagesFlow_no_invalidOption (init : HttpResponse)
    (polls : Nat → HttpResponse) (fuel : Nat) (ln d cr li : Option JVal)
    (pcfg : List (PyStr × JVal)) (m : PyStr) :
    (packagesFlow init polls fuel ln d cr li pcfg).2 ≠
      some (.error (.invalidOption m)) := by
  intro h
  simp only [packagesFlow] at h
  repeat' split at h
  all_goals
    simp_all [parsePackagesJson_no_invalidOption, contentCheck_no_invalidOption]

/-- The `LamblayerCreateLayerError` behaviour of the packages branch, by
cases on the initial response and the poll outcome. -/
theorem packagesFlow_createLayer_iff (init : HttpResponse)
    (polls : Nat → HttpResponse) (fuel : Nat) (ln d cr li : Option JVal)
    (pcfg : List (PyStr × JVal)) (arch runtime pkgs : PyStr) (nd : JVal)
    (hparse : parsePackagesJson pcfg = .ok (arch, runtime, pkgs, nd)) :
    ((∃ m, (packagesFlow init polls fuel ln d cr li pcfg).2 =
        some (.error (.createLayer m))) ↔
      (¬(200 ≤ init.status ∧ init.status < 300) ∨
        ∃ r e n, (pollPackages polls init.text fuel 0 0).2 = some (r, e) ∧
          pyIntOpt r.contentLength = .ok n ∧ n < 200)) ∧
    (¬(200 ≤ init.status ∧ init.status < 300) →
      ∀ ev ∈ (packagesFlow init polls fuel ln d cr li pcfg).1,
        ev.isPublish = false) ∧
    (∀ r e n, (pollPackages polls init.text fuel 0 0).2 = some (r, e) →
      pyIntOpt r.contentLength = .ok n → 200 ≤ n →
      200 ≤ init.status → init.status < 300 →
      (packagesFlow init polls fuel ln d cr li pcfg).2 = some (.ok ()) ∧
      ∃ ev ∈ (packagesFlow init polls fuel ln d cr li pcfg).1,
        ev.isPublish = true) := by
  by_cases h2xx : 200 ≤ init.status ∧ init.status < 300
  · cases hpr : (pollPackages polls init.text fuel 0 0).2 with
    | none =>
      have hflow : (packagesFlow init polls fuel ln d cr li pcfg).2 =
          none := by
        simp only [packagesFlow, hparse]
        rw [if_pos h2xx]
        simp only [hpr]
      refine ⟨?_, ?_, ?_⟩
      · constructor
        · intro ⟨m, hm⟩
          rw [hflow] at hm
          cases hm
        · rintro (hn | ⟨r, e, n, hsome, _, _⟩)
          · exact absurd h2xx hn
          · cases hsome
      · intro hn
        exact absurd h2xx hn
      · intro r e n hsome _ _ _ _
        cases hsome
    | some pr =>
      obtain ⟨r0, e0⟩ := pr
      rcases contentCheck_cases r0.contentLength with
        ⟨n0, hint, hlt, hcc⟩ | ⟨n0, hint, hge, hcc⟩ |
        ⟨e', hint, hcc, hncl, _⟩
      · have hflow : (packagesFlow init polls fuel ln d cr li pcfg).2 =
            some (.error (.createLayer msgBadPackage)) := by
          simp only [packagesFlow, hparse]
          rw [if_pos h2xx]
          simp only [hpr, hcc]
        refine ⟨?_, ?_, ?_⟩
        · constructor
          · intro _
            exact Or.inr ⟨r0, e0, n0, rfl, hint, hlt⟩
          · intro _
            exact ⟨msgBadPackage, hflow⟩
        · intro hn
          exact absurd h2xx hn
        · intro r e n hsome hint2 hge _ _
          cases hsome
          rw [hint] at hint2
          injection hint2 with hn0
          omega
      · have hflow : (packagesFlow init polls fuel ln d cr li pcfg).2 =
            some (.ok ()) := by
          simp only [packagesFlow, hparse]
          rw [if_pos h2xx]
          simp only [hpr, hcc]
        refine ⟨?_, ?_, ?_⟩
        · constructor
          · intro ⟨m, hm⟩
            rw [hflow] at hm
            cases hm
          · rintro (hn | ⟨r, e, n, hsome, hint2, hlt⟩)
            · exact absurd h2xx hn
            · cases hsome
              rw [hint] at hint2
              injection hint2 with hn0
              omega
        · intro hn
          exact absurd h2xx hn
        · intro r e n hsome hint2 hge2 _ _
          refine ⟨hflow, ?_⟩
          have hfl1 : (packagesFlow init polls fuel ln d cr li pcfg).1 =
              .httpGet (buildUrl arch runtime pkgs nd) ::
              ((pollPackages polls init.text fuel 0 0).1 ++
                [.publishS3 ln d cr li (s3BucketOf init.text)
                  (s3KeyOf init.text)]) := by
            simp only [packagesFlow, hparse]
            rw [if_pos h2xx]
            simp only [hpr, hcc]
          refine ⟨.publishS3 ln d cr li (s3BucketOf init.text)
            (s3KeyOf init.text), ?_, rfl⟩
          rw [hfl1]
          simp
      · have hflow : (packagesFlow init polls fuel ln d cr li pcfg).2 =
            some (.error e') := by
          simp only [packagesFlow, hparse]
          rw [if_pos h2xx]
          simp only [hpr, hcc]
        refine ⟨?_, ?_, ?_⟩
        · constructor
          · intro ⟨m, hm⟩
            rw [hflow] at hm
            injection hm with hm'
            injection hm' with hm2
            exact absurd hm2 (hncl m)
          · rintro (hn | ⟨r, e, n, hsome, hint2, _⟩)
            · exact absurd h2xx hn
            · cases hsome
              rw [hint] at hint2
              cases hint2
        · intro hn
          exact absurd h2xx hn
        · intro r e n hsome hint2 _ _ _
          cases hsome
          rw [hint] at hint2
          cases hint2
  · have hflow : packagesFlow init polls fuel ln d cr li pcfg =
        ([.httpGet (buildUrl arch runtime pkgs nd)],
         some (.error (.createLayer msgContact))) := by
      simp only [packagesFlow, hparse]
      rw [if_neg h2xx]
    refine ⟨?_, ?_, ?_⟩
    · constructor
      · intro _
        exact Or.inl h2xx
      · intro _
        refine ⟨msgContact, ?_⟩
        rw [hflow]
    · intro _ ev hev
      rw [hflow] at hev
      rcases List.mem_singleton.1 hev with rfl
      rfl
    · intro r e n _ _ _ hge hlt
      exact absurd ⟨hge, hlt⟩ h2xx

/-! ## Claim theorems -/

/-- C1 counterexample: when `shutil.make_archive` fails after a successful
copy, `_create_ziparchive` propagates the error with the scratch directory
still on disk — the deletion does not happen on this exit path. -/
theorem createZiparchive_leaks_on_zip_failure :
    createZiparchive "d41d8cd98f00b204e9800998ecf8427e".toList [] []
      (some [['a']]) false true = (true, .error .ioError) := by
  rfl

/-- C1 (amended): `shutil.rmtree` runs only on the success path.  The
scratch directory is gone whenever `_create_ziparchive` returns
successfully; if the zip creation or the zip read fails after the copy,
the scratch directory is left behind; if the copy itself fails because the
source is missing, no scratch directory was created. -/
theorem createZiparchive_cleanup (tempDir wrap_dir1 wrap_dir2 : PyStr)
    (files : List PyStr) (zipOk readOk : Bool) :
    (∀ entries,
      (createZiparchive tempDir wrap_dir1 wrap_dir2 (some files) zipOk
        readOk).2 = .ok entries →
      (createZiparchive tempDir wrap_dir1 wrap_dir2 (some files) zipOk
        readOk).1 = false) ∧
    (zipOk = false ∨ readOk = false →
      (createZiparchive tempDir wrap_dir1 wrap_dir2 (some files) zipOk
        readOk).1 = true) ∧
    createZiparchive tempDir wrap_dir1 wrap_dir2 none zipOk readOk =
      (false, .error .ioError) := by
  cases zipOk <;> cases readOk <;> simp [createZiparchive]

/-- Witness for `createZiparchive_cleanup` at concrete inputs: a
successful run leaves no scratch directory, a failed read leaks it. -/
theorem createZiparchive_cleanup_witness :
    (createZiparchive ['t'] [] [] (some [['a']]) true true).1 = false ∧
    (createZiparchive ['t'] [] [] (some [['a']]) true false).1 = true :=
  ⟨(createZiparchive_cleanup ['t'] [] [] [['a']] true true).1 _ (by rfl),
   (createZiparchive_cleanup ['t'] [] [] [['a']] true false).2.1
     (Or.inr rfl)⟩

/-- C2 counterexample: a layer config lacking the required fields
`LayerName` and `CompatibleRuntimes` is parsed successfully —
`_parse_create_layer_json` returns `None` for them instead of raising —
and the whole `create` call then completes successfully, publishing the
layer with those `None` values. -/
theorem parseCreateLayerJson_missing_required_returns :
    parseCreateLayerJson [(descriptionKey, JVal.str ['d'])] =
      (none, some (.str ['d']), none, none) ∧
    (create
      (fun p => if p = ['l'] then some [(descriptionKey, JVal.str ['d'])]
        else none)
      ⟨200, [], none⟩ (fun _ => ⟨200, [], none⟩) 1 true none (some ['s'])
      [] [] ['l']).2 = some (.ok ()) := by
  exact ⟨rfl, rfl⟩

/-- C2 (amended): `_parse_create_layer_json` loads the four fields with
`dict.get` and never validates them: with any layer config lacking
`LayerName`, `create` still proceeds, passing `None` as the layer name to
the publish call, and returns successfully. -/
theorem create_no_layer_config_validation
    (fs : PyStr → Option (List (PyStr × JVal))) (init : HttpResponse)
    (polls : Nat → HttpResponse) (fuel : Nat) (packages : Option PyStr)
    (s wrap_dir1 wrap_dir2 layer_path : PyStr)
    (cfg : List (PyStr × JVal)) (hs : s ≠ [])
    (hp : pyTruthy packages = false)
    (hfs : fs layer_path = some cfg)
    (hln : lookupKey cfg layerNameKey = none) :
    create fs init polls fuel true packages (some s) wrap_dir1 wrap_dir2
      layer_path =
    ([.fsReadConfig layer_path, .zipArchive s wrap_dir1 wrap_dir2,
      .publishZip none (lookupKey cfg descriptionKey)
        (lookupKey cfg compatibleRuntimesKey)
        (lookupKey cfg licenseInfoKey)],
     some (.ok ())) := by
  have hst : pyTruthy (some s) = true := by simp [pyTruthy, hs]
  simp [create, hst, hp, hfs, parseCreateLayerJson, hln]

/-- Witness for `create_no_layer_config_validation` on a concrete config
with only a `Description` field. -/
theorem create_no_layer_config_validation_witness :
    create
      (fun p => if p = ['l'] then some [(descriptionKey, JVal.str ['d'])]
        else none)
      ⟨200, [], none⟩ (fun _ => ⟨200, [], none⟩) 1 true none (some ['s'])
      [] [] ['l'] =
    ([.fsReadConfig ['l'], .zipArchive ['s'] [] [],
      .publishZip none
        (lookupKey [(descriptionKey, JVal.str ['d'])] descriptionKey)
        (lookupKey [(descriptionKey, JVal.str ['d'])] compatibleRuntimesKey)
        (lookupKey [(descriptionKey, JVal.str ['d'])] licenseInfoKey)],
     some (.ok ())) :=
  create_no_layer_config_validation _ _ _ 1 none ['s'] [] [] ['l']
    [(descriptionKey, JVal.str ['d'])] (by decide) rfl rfl rfl

/-- C3: a packages config missing `Arch` does raise
`LamblayerParamValidationError`, but the error's message is only the fixed
prefix `"ParamValidationError: Parameter validation failed:\n"` — the
f-strings that would name the parameter are discarded expression
statements in `LamblayerParamValidationError.__init__` — so the message
never names `Arch`. -/
theorem paramValidation_message_omits_field :
    parsePackagesJson [] = .error (.paramValidation paramValidationMessage) ∧
    containsSeq archKey paramValidationMessage = false := by
  exact ⟨rfl, by decide⟩

/-- C4: for every source file set and every pair of well-formed wrap
directory names (non-empty-segment names neither starting nor ending in
`/`; the source's callers pass plain names or `""`), the archive produced
by `_create_ziparchive` contains exactly the members
`wrap_dir1/wrap_dir2/rel`, with empty wrap segments omitted — with both
wraps empty the contents sit at the archive root. -/
theorem createZiparchive_wrap_layout (tempDir wrap_dir1 wrap_dir2 : PyStr)
    (files : List PyStr)
    (htn : tempDir ≠ []) (htl : tempDir.getLast? ≠ some '/')
    (h1h : wrap_dir1.head? ≠ some '/') (h1l : wrap_dir1.getLast? ≠ some '/')
    (h2h : wrap_dir2.head? ≠ some '/') (h2l : wrap_dir2.getLast? ≠ some '/')
    (hf : ∀ rel ∈ files, rel ≠ [] ∧ rel.head? ≠ some '/') :
    (createZiparchive tempDir wrap_dir1 wrap_dir2 (some files) true true).2 =
      .ok (files.map (specArchivePath wrap_dir1 wrap_dir2)) := by
  have hdef : createZiparchive tempDir wrap_dir1 wrap_dir2 (some files)
      true true =
      (false, .ok (files.filterMap (fun rel =>
        archiveEntry (pathJoin tempDir "rawlayer".toList)
          (pathJoin
            (pathJoin (pathJoin (pathJoin tempDir "rawlayer".toList)
              wrap_dir1) wrap_dir2) rel)))) := rfl
  rw [hdef]
  exact congrArg Except.ok
    (filterMap_eq_map_of_forall files _ _ (fun rel hrel =>
      archiveEntry_spec tempDir wrap_dir1 wrap_dir2 rel htn htl h1h h1l
        h2h h2l (hf rel hrel).1 (hf rel hrel).2))

/-- Witness for `createZiparchive_wrap_layout`: wrapping two files in
`python` (second wrap empty) yields members `python/a.py` and
`python/sub/b.py`. -/
theorem createZiparchive_wrap_layout_witness :
    (createZiparchive "tmphash".toList "python".toList []
      (some ["a.py".toList, "sub/b.py".toList]) true true).2 =
      .ok (["a.py".toList, "sub/b.py".toList].map
        (specArchivePath "python".toList [])) :=
  createZiparchive_wrap_layout "tmphash".toList "python".toList []
    ["a.py".toList, "sub/b.py".toList] (by decide) (by decide) (by decide)
    (by decide) (by decide) (by decide) (by decide)

/-- C7: for a pre-signed URL `https://B.R/K` (host label `B` free of `.`
and `/`, host remainder `R` free of `/`), the bucket recovered by
`pre_signedurl.split(".")[0].split("//")[-1]` is exactly the host segment
before the first `.` with the scheme stripped, namely `B`, and the key
recovered by `pre_signedurl.split("/", 3)[-1]` is everything after the
third `/`, namely `K`. -/
theorem s3_url_parsing (B R K : PyStr)
    (hBdot : '.' ∉ B) (hBslash : '/' ∉ B) (hRslash : '/' ∉ R) :
    s3BucketOf ("https://".toList ++ B ++ '.' :: (R ++ '/' :: K)) = B ∧
    s3KeyOf ("https://".toList ++ B ++ '.' :: (R ++ '/' :: K)) = K := by
  constructor
  · have ha1 : '.' ∉ "https://".toList ++ B := by
      intro hm
      rcases List.mem_append.1 hm with h | h
      · revert h; decide
      · exact hBdot h
    have hs1 : splitOnceSeq ['.']
        ("https://".toList ++ B ++ '.' :: (R ++ '/' :: K)) =
        some ("https://".toList ++ B, R ++ '/' :: K) := by
      have := splitOnceSeq_append_spec '.' [] ("https://".toList ++ B)
        ('.' :: (R ++ '/' :: K)) ha1 (by simp [List.isPrefixOf])
      simpa using this
    have hfirst :
        (pySplit ['.'] ("https://".toList ++ B ++ '.' :: (R ++ '/' :: K))).headD
          [] = "https://".toList ++ B :=
      pySplit_headD_of_some _ _ _ _ hs1
    have hs2 : splitOnceSeq ['/', '/'] ("https://".toList ++ B) =
        some ("https:".toList, B) := by
      rw [show "https://".toList = "https:".toList ++ ['/', '/'] from rfl,
        List.append_assoc]
      have := splitOnceSeq_append_spec '/' ['/'] "https:".toList
        ('/' :: '/' :: B) (by decide) (by simp [List.isPrefixOf])
      simpa using this
    have hsecond : pySplit ['/', '/'] ("https://".toList ++ B) =
        ["https:".toList, B] :=
      pySplit_pair _ _ _ _ hs2 (splitOnceSeq_none_spec '/' ['/'] B hBslash)
    unfold s3BucketOf
    rw [hfirst, hsecond]
    rfl
  · have h0 : "https://".toList ++ B ++ '.' :: (R ++ '/' :: K) =
        "https:".toList ++ '/' :: ('/' :: ((B ++ '.' :: R) ++ '/' :: K)) := by
      rw [show "https://".toList = "https:".toList ++ ['/', '/'] from rfl]
      simp
    rw [h0]
    have hsA : splitOnceSeq ['/']
        ("https:".toList ++ '/' :: ('/' :: ((B ++ '.' :: R) ++ '/' :: K))) =
        some ("https:".toList, '/' :: ((B ++ '.' :: R) ++ '/' :: K)) := by
      have := splitOnceSeq_append_spec '/' [] "https:".toList
        ('/' :: ('/' :: ((B ++ '.' :: R) ++ '/' :: K))) (by decide)
        (by simp [List.isPrefixOf])
      simpa using this
    have hsB : splitOnceSeq ['/'] ('/' :: ((B ++ '.' :: R) ++ '/' :: K)) =
        some ([], (B ++ '.' :: R) ++ '/' :: K) := by
      have := splitOnceSeq_append_spec '/' [] []
        ('/' :: ((B ++ '.' :: R) ++ '/' :: K)) (by simp)
        (by simp [List.isPrefixOf])
      simpa using this
    have haC : '/' ∉ B ++ '.' :: R := by
      intro hm
      rcases List.mem_append.1 hm with h | h
      · exact hBslash h
      · rcases List.mem_cons.1 h with h | h
        · exact absurd h (by decide)
        · exact hRslash h
    have hsC : splitOnceSeq ['/'] ((B ++ '.' :: R) ++ '/' :: K) =
        some (B ++ '.' :: R, K) := by
      have := splitOnceSeq_append_spec '/' [] (B ++ '.' :: R) ('/' :: K)
        haC (by simp [List.isPrefixOf])
      simpa using this
    unfold s3KeyOf
    rw [show (3 : Nat) = 2 + 1 from rfl, pySplitN_succ_of_some _ _ _ _ _ hsA,
      show (2 : Nat) = 1 + 1 from rfl, pySplitN_succ_of_some _ _ _ _ _ hsB,
      show (1 : Nat) = 0 + 1 from rfl, pySplitN_succ_of_some _ _ _ _ _ hsC]
    rfl

/-- Witness for `s3_url_parsing` on
`https://mybucket.s3.amazonaws.com/layers/pkg.zip`: the bucket is
`mybucket` and the key is `layers/pkg.zip`. -/
theorem s3_url_parsing_witness :
    s3BucketOf ("https://".toList ++ "mybucket".toList ++ '.' ::
      ("s3.amazonaws.com".toList ++ '/' :: "layers/pkg.zip".toList)) =
      "mybucket".toList ∧
    s3KeyOf ("https://".toList ++ "mybucket".toList ++ '.' ::
      ("s3.amazonaws.com".toList ++ '/' :: "layers/pkg.zip".toList)) =
      "layers/pkg.zip".toList :=
  s3_url_parsing "mybucket".toList "s3.amazonaws.com".toList
    "layers/pkg.zip".toList (by decide) (by decide) (by decide)

/-- C5: in the remote-package path (packages supplied, src not, both
config files readable and the packages config valid), a
`LamblayerCreateLayerError` is raised exactly when the initial
build-service request is non-2xx or the completed poll's
`Content-Length`, parsed by `int()`, is below 200; on a non-2xx initial
response no publish call is performed, and a completed poll with
`Content-Length` at least 200 publishes and raises nothing. -/
theorem create_createLayer_iff (fs : PyStr → Option (List (PyStr × JVal)))
    (init : HttpResponse) (polls : Nat → HttpResponse) (fuel : Nat)
    (zipOk : Bool) (pp : PyStr) (src : Option PyStr)
    (wrap_dir1 wrap_dir2 layer_path : PyStr) (lcfg pcfg : List (PyStr × JVal))
    (arch runtime pkgs : PyStr) (nd : JVal)
    (hpp : pp ≠ []) (hsrc : pyTruthy src = false)
    (hfl : fs layer_path = some lcfg) (hfp : fs pp = some pcfg)
    (hparse : parsePackagesJson pcfg = .ok (arch, runtime, pkgs, nd)) :
    ((∃ m, (create fs init polls fuel zipOk (some pp) src wrap_dir1
        wrap_dir2 layer_path).2 = some (.error (.createLayer m))) ↔
      (¬(200 ≤ init.status ∧ init.status < 300) ∨
        ∃ r e n, (pollPackages polls init.text fuel 0 0).2 = some (r, e) ∧
          pyIntOpt r.contentLength = .ok n ∧ n < 200)) ∧
    (¬(200 ≤ init.status ∧ init.status < 300) →
      ∀ ev ∈ (create fs init polls fuel zipOk (some pp) src wrap_dir1
        wrap_dir2 layer_path).1, ev.isPublish = false) ∧
    (∀ r e n, (pollPackages polls init.text fuel 0 0).2 = some (r, e) →
      pyIntOpt r.contentLength = .ok n → 200 ≤ n →
      200 ≤ init.status → init.status < 300 →
      (create fs init polls fuel zipOk (some pp) src wrap_dir1 wrap_dir2
        layer_path).2 = some (.ok ()) ∧
      ∃ ev ∈ (create fs init polls fuel zipOk (some pp) src wrap_dir1
        wrap_dir2 layer_path).1, ev.isPublish = true) := by
  have hc := create_packages_eq fs init polls fuel zipOk pp src wrap_dir1
    wrap_dir2 layer_path lcfg pcfg hpp hsrc hfl hfp
  have hp := packagesFlow_createLayer_iff init polls fuel
    (parseCreateLayerJson lcfg).1 (parseCreateLayerJson lcfg).2.1
    (parseCreateLayerJson lcfg).2.2.1 (parseCreateLayerJson lcfg).2.2.2
    pcfg arch runtime pkgs nd hparse
  refine ⟨?_, ?_, ?_⟩
  · rw [hc]
    exact hp.1
  · intro hn ev hev
    rw [hc] at hev
    rcases List.mem_cons.1 hev with rfl | hev2
    · rfl
    · rcases List.mem_cons.1 hev2 with rfl | hev3
      · rfl
      · exact hp.2.1 hn ev hev3
  · intro r e n h1 h2 h3 h4 h5
    obtain ⟨hres, ev, hev, hpub⟩ := hp.2.2 r e n h1 h2 h3 h4 h5
    rw [hc]
    exact ⟨hres, ev, by simp [hev], hpub⟩

/-- Witness for `create_createLayer_iff`: a 404 from the build service
makes `create` raise a `LamblayerCreateLayerError`. -/
theorem create_createLayer_iff_witness :
    ∃ m, (create
      (fun p => if p = ['l'] then some [] else
        if p = ['p'] then some [(archKey, JVal.str ['x']),
          (runtimeKey, JVal.str ['y']), (packagesKey, JVal.str ['z'])]
        else none)
      ⟨404, [], none⟩ (fun _ => ⟨200, [], none⟩) 1 true (some ['p']) none
      [] [] ['l']).2 = some (.error (.createLayer m)) :=
  ((create_createLayer_iff _ _ _ 1 true ['p'] none [] [] ['l'] []
    [(archKey, JVal.str ['x']), (runtimeKey, JVal.str ['y']),
      (packagesKey, JVal.str ['z'])]
    ['x'] ['y'] ['z'] (JVal.int 0) (by decide) rfl rfl rfl rfl).1).mpr
    (Or.inl (by decide))

/-- C6: a list-valued `Packages` field is joined with `&` by
`_parse_packages_json`, and `create` issues its build-service request to
`https://layerzip.higuchi.work/<arch>/<runtime>/<packages>?no-deps=<flag>`
with that joined string as the packages path segment. -/
theorem create_builds_url (fs : PyStr → Option (List (PyStr × JVal)))
    (init : HttpResponse) (polls : Nat → HttpResponse) (fuel : Nat)
    (zipOk : Bool) (pp : PyStr) (src : Option PyStr)
    (wrap_dir1 wrap_dir2 layer_path : PyStr) (lcfg pcfg : List (PyStr × JVal))
    (a r : PyStr) (sl : List PyStr) (nd : Int)
    (hpp : pp ≠ []) (hsrc : pyTruthy src = false)
    (hfl : fs layer_path = some lcfg) (hfp : fs pp = some pcfg)
    (ha : lookupKey pcfg archKey = some (.str a))
    (hr : lookupKey pcfg runtimeKey = some (.str r))
    (hpk : lookupKey pcfg packagesKey = some (.list (sl.map .str)))
    (hnd : lookupKey pcfg noDepsKey = some (.int nd)) :
    parsePackagesJson pcfg = .ok (a, r, List.intercalate ['&'] sl, .int nd) ∧
    ∃ rest, (create fs init polls fuel zipOk (some pp) src wrap_dir1
        wrap_dir2 layer_path).1 =
      .fsReadConfig layer_path :: .fsReadConfig pp ::
      .httpGet ("https://layerzip.higuchi.work/".toList ++ a ++ '/' :: r ++
        '/' :: List.intercalate ['&'] sl ++ "?no-deps=".toList ++
        (toString nd).toList) :: rest := by
  have hparse : parsePackagesJson pcfg =
      .ok (a, r, List.intercalate ['&'] sl, .int nd) := by
    simp [parsePackagesJson, ha, hr, hpk, hnd, isPyInt, joinAmp,
      strVals_map_str]
  refine ⟨hparse, ?_⟩
  have hc := create_packages_eq fs init polls fuel zipOk pp src wrap_dir1
    wrap_dir2 layer_path lcfg pcfg hpp hsrc hfl hfp
  obtain ⟨rest, hrest⟩ := packagesFlow_head_url init polls fuel
    (parseCreateLayerJson lcfg).1 (parseCreateLayerJson lcfg).2.1
    (parseCreateLayerJson lcfg).2.2.1 (parseCreateLayerJson lcfg).2.2.2
    pcfg a r (List.intercalate ['&'] sl) (.int nd) hparse
  refine ⟨rest, ?_⟩
  rw [hc]
  simp only [List.cons.injEq, true_and]
  exact hrest

/-- Witness for `create_builds_url`: `["a","b","c"]` joins to `a&b&c` and
the request URL's packages segment is `a&b&c`. -/
theorem create_builds_url_witness :
    parsePackagesJson [(archKey, JVal.str "x86_64".toList),
      (runtimeKey, JVal.str "python3.9".toList),
      (packagesKey, JVal.list [JVal.str ['a'], JVal.str ['b'],
        JVal.str ['c']]),
      (noDepsKey, JVal.int 0)] =
      .ok ("x86_64".toList, "python3.9".toList,
        List.intercalate ['&'] [['a'], ['b'], ['c']], JVal.int 0) ∧
    ∃ rest, (create
      (fun p => if p = ['l'] then some [] else
        if p = ['p'] then some [(archKey, JVal.str "x86_64".toList),
          (runtimeKey, JVal.str "python3.9".toList),
          (packagesKey, JVal.list [JVal.str ['a'], JVal.str ['b'],
            JVal.str ['c']]),
          (noDepsKey, JVal.int 0)]
        else none)
      ⟨404, [], none⟩ (fun _ => ⟨200, [], none⟩) 1 true (some ['p']) none
      [] [] ['l']).1 =
      .fsReadConfig ['l'] :: .fsReadConfig ['p'] ::
      .httpGet ("https://layerzip.higuchi.work/".toList ++
        "x86_64".toList ++ '/' :: "python3.9".toList ++
        '/' :: List.intercalate ['&'] [['a'], ['b'], ['c']] ++
        "?no-deps=".toList ++ (toString (0 : Int)).toList) :: rest :=
  create_builds_url _ _ _ 1 true ['p'] none [] [] ['l'] [] _
    "x86_64".toList "python3.9".toList [['a'], ['b'], ['c']] 0
    (by decide) rfl rfl rfl rfl rfl rfl rfl

/-- C8: supplying both options (or neither) makes `create` raise
`LamblayerInvalidOptionError` having performed no event at all (no file
read, no network request); supplying exactly one never raises that
error. -/
theorem create_option_check (fs : PyStr → Option (List (PyStr × JVal)))
    (init : HttpResponse) (polls : Nat → HttpResponse) (fuel : Nat)
    (zipOk : Bool) (packages src : Option PyStr)
    (wrap_dir1 wrap_dir2 layer_path : PyStr) :
    (pyTruthy packages = true → pyTruthy src = true →
      create fs init polls fuel zipOk packages src wrap_dir1 wrap_dir2
        layer_path = ([], some (.error (.invalidOption msgBothOptions)))) ∧
    (pyTruthy packages = false → pyTruthy src = false →
      create fs init polls fuel zipOk packages src wrap_dir1 wrap_dir2
        layer_path = ([], some (.error (.invalidOption msgNeitherOption)))) ∧
    (pyTruthy packages ≠ pyTruthy src →
      ∀ m, (create fs init polls fuel zipOk packages src wrap_dir1
        wrap_dir2 layer_path).2 ≠ some (.error (.invalidOption m))) := by
  refine ⟨?_, ?_, ?_⟩
  · intro hp hs
    simp [create, hp, hs]
  · intro hp hs
    simp [create, hp, hs]
  · intro hne m h
    cases hp : pyTruthy packages <;> cases hs : pyTruthy src
    · rw [hp, hs] at hne
      exact hne rfl
    · simp only [create, hp, hs, Bool.false_and, Bool.true_and,
        Bool.not_false, Bool.not_true, Bool.and_false, if_false] at h
      repeat' split at h
      all_goals simp_all [packagesFlow_no_invalidOption]
    · simp only [create, hp, hs, Bool.and_false, Bool.true_and,
        Bool.not_false, Bool.not_true, Bool.false_and, if_false] at h
      repeat' split at h
      all_goals simp_all [packagesFlow_no_invalidOption]
    · rw [hp, hs] at hne
      exact hne rfl

/-- Witness for `create_option_check` at concrete inputs: both options
raise the mutual-exclusion error with an empty event trace, neither
raises the missing-option error, and a packages-only call never raises
`LamblayerInvalidOptionError`. -/
theorem create_option_check_witness :
    create (fun _ => none) ⟨200, [], none⟩ (fun _ => ⟨200, [], none⟩) 0
      true (some ['p']) (some ['s']) [] [] [] =
      ([], some (.error (.invalidOption msgBothOptions))) ∧
    create (fun _ => none) ⟨200, [], none⟩ (fun _ => ⟨200, [], none⟩) 0
      true none none [] [] [] =
      ([], some (.error (.invalidOption msgNeitherOption))) ∧
    (create (fun _ => none) ⟨200, [], none⟩ (fun _ => ⟨200, [], none⟩) 0
      true (some ['p']) none [] [] []).2 ≠
      some (.error (.invalidOption ['q'])) :=
  ⟨(create_option_check _ _ _ 0 true (some ['p']) (some ['s']) [] [] []).1
      (by decide) (by decide),
   (create_option_check _ _ _ 0 true none none [] [] []).2.1 rfl rfl,
   (create_option_check _ _ _ 0 true (some ['p']) none [] [] []).2.2
      (by decide) ['q']⟩

/-- C10: when the completed poll response carries no `Content-Length`
header, the size check applies `int()` to `None` and the call fails with
a `TypeError`, not with a `LamblayerCreateLayerError`. -/
theorem create_missing_content_length
    (fs : PyStr → Option (List (PyStr × JVal))) (init : HttpResponse)
    (polls : Nat → HttpResponse) (fuel : Nat) (zipOk : Bool) (pp : PyStr)
    (src : Option PyStr) (wrap_dir1 wrap_dir2 layer_path : PyStr)
    (lcfg pcfg : List (PyStr × JVal)) (arch runtime pkgs : PyStr)
    (nd : JVal) (r : HttpResponse) (e : Nat)
    (hpp : pp ≠ []) (hsrc : pyTruthy src = false)
    (hfl : fs layer_path = some lcfg) (hfp : fs pp = some pcfg)
    (hparse : parsePackagesJson pcfg = .ok (arch, runtime, pkgs, nd))
    (h2xx : 200 ≤ init.status ∧ init.status < 300)
    (hpoll : (pollPackages polls init.text fuel 0 0).2 = some (r, e))
    (hcl : r.contentLength = none) :
    (create fs init polls fuel zipOk (some pp) src wrap_dir1 wrap_dir2
      layer_path).2 = some (.error .typeError) ∧
    ∀ m, (create fs init polls fuel zipOk (some pp) src wrap_dir1
      wrap_dir2 layer_path).2 ≠ some (.error (.createLayer m)) := by
  have hc := create_packages_eq fs init polls fuel zipOk pp src wrap_dir1
    wrap_dir2 layer_path lcfg pcfg hpp hsrc hfl hfp
  have hcc : contentCheck r.contentLength = .error .typeError := by
    rw [hcl]
    rfl
  have hflow : (packagesFlow init polls fuel (parseCreateLayerJson lcfg).1
      (parseCreateLayerJson lcfg).2.1 (parseCreateLayerJson lcfg).2.2.1
      (parseCreateLayerJson lcfg).2.2.2 pcfg).2 =
      some (.error .typeError) := by
    simp only [packagesFlow, hparse]
    rw [if_pos h2xx]
    simp only [hpoll, hcc]
  constructor
  · rw [hc]
    exact hflow
  · intro m h
    rw [hc] at h
    simp only at h
    rw [hflow] at h
    cases h

/-- Witness for `create_missing_content_length`: a poll that completes
with status 200 and no `Content-Length` header ends in a `TypeError`. -/
theorem create_missing_content_length_witness :
    (create
      (fun p => if p = ['l'] then some [] else
        if p = ['p'] then some [(archKey, JVal.str ['x']),
          (runtimeKey, JVal.str ['y']), (packagesKey, JVal.str ['z'])]
        else none)
      ⟨200, ['u'], none⟩ (fun _ => ⟨200, [], none⟩) 1 true (some ['p'])
      none [] [] ['l']).2 = some (.error .typeError) :=
  (create_missing_content_length
    (fun p => if p = ['l'] then some [] else
      if p = ['p'] then some [(archKey, JVal.str ['x']),
        (runtimeKey, JVal.str ['y']), (packagesKey, JVal.str ['z'])]
      else none)
    ⟨200, ['u'], none⟩ (fun _ => ⟨200, [], none⟩) 1 true ['p'] none [] []
    ['l'] []
    [(archKey, JVal.str ['x']), (runtimeKey, JVal.str ['y']),
      (packagesKey, JVal.str ['z'])]
    ['x'] ['y'] ['z'] (JVal.int 0) ⟨200, [], none⟩ 0 (by decide) rfl rfl
    rfl rfl (by decide) rfl rfl).1

/-- C9: the poll loop hands control onward only after some poll returned
status 200 (the first such poll, with 5 seconds of sleep accounted per
earlier poll), and on a stream with no 200 response it runs forever (no
fuel suffices, there being no retry limit). -/
theorem pollPackages_protocol (polls : Nat → HttpResponse) (url : PyStr) :
    ((∀ n, (polls n).status ≠ 200) →
      ∀ fuel i e, (pollPackages polls url fuel i e).2 = none) ∧
    (∀ fuel r e, (pollPackages polls url fuel 0 0).2 = some (r, e) →
      r.status = 200 ∧ ∃ i, r = polls i ∧ e = 5 * i ∧
        ∀ j, j < i → (polls j).status ≠ 200) := by
  constructor
  · intro h fuel i e
    exact pollPackages_none_spec polls url h fuel i e
  · intro fuel r e h
    obtain ⟨k, hk1, hk2, hk3, hk4⟩ :=
      pollPackages_some_spec polls url fuel 0 0 r e h
    refine ⟨hk2, k, by simpa using hk1, by omega, ?_⟩
    intro j hj
    simpa using hk4 j hj

/-- Witness for `pollPackages_protocol`: a stream of 503s never completes;
a stream whose first 200 is poll number 2 completes on that poll with 10
seconds elapsed. -/
theorem pollPackages_protocol_witness :
    (pollPackages (fun _ => ⟨503, [], none⟩) [] 4 0 0).2 = none ∧
    ((⟨200, [], none⟩ : HttpResponse).status = 200 ∧
      ∃ i, (⟨200, [], none⟩ : HttpResponse) =
          (fun n => if n = 2 then (⟨200, [], none⟩ : HttpResponse)
            else ⟨503, [], none⟩) i ∧
        10 = 5 * i ∧ ∀ j, j < i →
          ((fun n => if n = 2 then (⟨200, [], none⟩ : HttpResponse)
            else ⟨503, [], none⟩) j).status ≠ 200) :=
  ⟨(pollPackages_protocol _ []).1 (fun n => by decide) 4 0 0,
   (pollPackages_protocol _ []).2 5 _ 10 (by decide)⟩

end Lamblayer
